import Mathlib

/-!
Shallow embedding of the VoiceBot realtime relay and function-dispatch engine
(`src/server.py`, class `RealtimeAPIProxy`, plus the module-level websocket
handlers).  Python dictionaries that flow through the dispatch loop are
modelled by the `JVal` type below; collaborator calls (the RAG vector store,
HTTP requests, the Amadeus flight client) are parameters of the embedding,
supplied through `CapEnv`.  Exceptions that the Python code catches and turns
into values are modelled as the returned values; string literals from the
source are reproduced except that apostrophes inside them are elided.
-/

namespace VoiceBot

/-- JSON-like values: the shape of the Python dicts handled by the server. -/
inductive JVal where
  | s (v : String)
  | n (v : Int)
  | b (v : Bool)
  | null
  | arr (vs : List JVal)
  | obj (fields : List (String × JVal))

/-- Field lookup on an object (Python `d.get(k)` / `d[k]`); `none` for a
missing key or a non-object value. -/
def jGet : JVal → String → Option JVal
  | .obj fs, k => fs.lookup k
  | _, _ => none

/-- Python `d.get(k, default)` restricted to string values. -/
def jGetStrD (v : JVal) (k d : String) : String :=
  match jGet v k with
  | some (.s t) => t
  | _ => d

/-- Field as an optional string (no default). -/
def jGetStr (v : JVal) (k : String) : Option String :=
  match jGet v k with
  | some (.s t) => some t
  | _ => none

/-- Python `int(d.get(k, default))` for numeric fields. -/
def jGetIntD (v : JVal) (k : String) (d : Int) : Int :=
  match jGet v k with
  | some (.n i) => i
  | _ => d

/-- Python truthiness of a value. -/
def jTruthy : JVal → Bool
  | .s t => t ≠ ""
  | .n i => i ≠ 0
  | .b bv => bv
  | .null => false
  | .arr l => ¬ l.isEmpty
  | .obj l => ¬ l.isEmpty

/-- Test that a field holds a given string (decidable form of
Python `d.get(k) == value`). -/
def jIsStr (v : JVal) (k t : String) : Bool :=
  match jGet v k with
  | some (.s u) => u == t
  | _ => false

/-- A capability result is a Failure when it carries an `error` field
(the shape every error path of the source returns). -/
def jHasError (v : JVal) : Bool := (jGet v "error").isSome

/-! Character-level models of the Python string methods the server uses
(`str.upper`, `str.lower`, slicing, `str.split()`): defined over the
character list so concrete instances evaluate inside proofs. -/

/-- Python `s.upper()` (ASCII). -/
def pyUpper (s : String) : String := ⟨s.data.map Char.toUpper⟩

/-- Python `s.lower()` (ASCII). -/
def pyLower (s : String) : String := ⟨s.data.map Char.toLower⟩

/-- Python `s[:n]`. -/
def pyTake (s : String) (n : Nat) : String := ⟨s.data.take n⟩

/-- Accumulator pass of `pyWords`. -/
def wordsAux : List Char → List Char → List String
  | [], acc => if acc.isEmpty then [] else [⟨acc.reverse⟩]
  | c :: cs, acc =>
    if c.isWhitespace then
      (if acc.isEmpty then wordsAux cs [] else (⟨acc.reverse⟩ : String) :: wordsAux cs [])
    else wordsAux cs (c :: acc)

/-- Python `s.split()`: whitespace runs separate words, no empties. -/
def pyWords (s : String) : List String := wordsAux s.data []

/-- Auxiliary: `sub` occurs as a contiguous sublist of `s`. -/
def hasSubAux (sub : List Char) : List Char → Bool
  | [] => sub.isEmpty
  | c :: cs => List.isPrefixOf sub (c :: cs) || hasSubAux sub cs

/-- Python `sub in s` on strings. -/
def hasSub (s sub : String) : Bool := hasSubAux sub.data s.data

/-! ## Knowledge Base Gateway: `search_rag` (src/server.py lines 450-522) -/

/-- One document returned by the vector store: `page_content` plus the
metadata fields the gateway reads. -/
structure Doc where
  page_content : String
  filename : String
  chunk_index : Int
  file_id : String

/-- The vector store collaborator: `none` models `self.rag_store is None`
(knowledge base not initialized); a call returning `Except.error e` models
`similarity_search` raising an exception with message `e`. -/
abbrev RagStore := Option (String → Nat → Except String (List Doc))

/-- Lines 474-475: `keywords = query.lower().split()[:3]`, rejoined with
spaces.  Python `str.split()` splits on whitespace runs and drops empties. -/
def keywordReduce (query : String) : String :=
  String.intercalate " " ((pyWords (pyLower query)).take 3)

/-- Line 455 and line 522: the two Failure shapes of `search_rag`. -/
def ragErrorObj (msg : String) : JVal :=
  .obj [("error", .s msg), ("results", .arr [])]

/-- Lines 480-485: the zero-result Success object. -/
def ragNoResultsMsg : String :=
  "No relevant documents found. Please make sure documents are uploaded to the knowledge base."

/-- Lines 489-499: one entry of the `results` list (`metadata` is flattened
into its three read fields). -/
def ragResultEntry (rank : Nat) (d : Doc) : JVal :=
  .obj [("content", .s d.page_content),
        ("metadata", .obj [("filename", .s d.filename),
                           ("chunk_index", .n d.chunk_index),
                           ("file_id", .s d.file_id)]),
        ("relevance_rank", .n (rank + 1)),
        ("file_id", .s d.file_id),
        ("source", .s (d.filename ++ " (chunk " ++ toString (d.chunk_index + 1) ++ ")"))]

/-- Lines 488-502: unique source filenames in first-seen order. -/
def uniqueSources (docs : List Doc) : List String :=
  docs.foldl (fun acc d => if d.filename ∈ acc then acc else acc ++ [d.filename]) []

/-- Line 513: the human-readable summary (top two excerpts concatenated). -/
def ragSummary (docs : List Doc) : String :=
  "Found " ++ toString docs.length ++ " relevant chunks from "
    ++ toString (uniqueSources docs).length ++ " document(s): "
    ++ String.intercalate ", " (uniqueSources docs) ++ ". Content: "
    ++ String.intercalate " " ((docs.take 2).map (fun d => d.page_content))

/-- `RealtimeAPIProxy.search_rag` (lines 450-522).  The whole body is wrapped
in `try/except`, so a raise from either similarity search yields the
`{error, results: []}` object; a missing store yields the
not-initialized error; zero hits after the single keyword retry yield a
Success with `count == 0` and an explanatory message. -/
def search_rag (store : RagStore) (query : String) (top_k : Nat) : JVal :=
  match store with
  | none => ragErrorObj "Knowledge base not initialized"
  | some search =>
    let attempt : Except String (List Doc) :=
      match search query top_k with
      | .error e => .error e
      | .ok docs =>
        if docs.isEmpty then search (keywordReduce query) top_k else .ok docs
    match attempt with
    | .error e => ragErrorObj e
    | .ok docs =>
      if docs.isEmpty then
        .obj [("query", .s query), ("results", .arr []), ("count", .n 0),
              ("message", .s ragNoResultsMsg)]
      else
        .obj [("query", .s query),
              ("results", .arr (docs.enum.map (fun p => ragResultEntry p.1 p.2))),
              ("count", .n docs.length),
              ("sources", .arr ((uniqueSources docs).map .s)),
              ("summary", .s (ragSummary docs))]

/-- The queries `search_rag` issues to the store, in order (line 469 always,
line 477 only when the first search returned zero documents). -/
def ragQueries (search : String → Nat → Except String (List Doc))
    (query : String) (top_k : Nat) : List String :=
  match search query top_k with
  | .ok [] => [query, keywordReduce query]
  | _ => [query]

/-! ## Workflow simulator: `execute_workflow` (src/server.py lines 524-576) -/

/-- Lines 529-556: the four canonical workflows and their fixed step lists. -/
def workflows : List (String × List String) :=
  [("customer_onboarding",
     ["verify_identity", "create_account", "send_welcome_email", "schedule_followup"]),
   ("support_ticket",
     ["categorize_issue", "check_knowledge_base", "create_ticket", "assign_agent",
      "send_confirmation"]),
   ("order_processing",
     ["validate_order", "check_inventory", "process_payment", "generate_invoice",
      "arrange_shipping"]),
   ("data_analysis",
     ["fetch_data", "clean_data", "run_analysis", "generate_report"])]

/-- `RealtimeAPIProxy.execute_workflow` (lines 524-576).  `workflow_id` (a
fresh uuid) and `duration_ms` (wall-clock) are parameters of the embedding.
The simulation loop (lines 562-565) appends every step of the selected list
in order, so `steps_executed` is exactly `workflows.get(workflow_type, [])`. -/
def execute_workflow (workflow_type : String) (parameters : JVal)
    (workflow_id : String) (duration_ms : Int) : JVal :=
  let steps := ((workflows.lookup workflow_type).getD [])
  .obj [("workflow_id", .s workflow_id),
        ("type", .s workflow_type),
        ("status", .s "completed"),
        ("steps_executed", .arr (steps.map .s)),
        ("duration_ms", .n duration_ms),
        ("parameters", parameters)]

/-! ## External API bridge: `call_api` (src/server.py lines 578-748) and the
flight search fallback `search_flights` (lines 1003-1247) -/

/-- The outcome of one HTTP request: status, raw body text, and the result of
`json.loads` on it (`none` models a `JSONDecodeError`). -/
structure HttpResp where
  status : Nat
  text : String
  parsed : Option JVal

/-- Outcome of the built-in Amadeus call wrapped in
`asyncio.wait_for(..., timeout=20.0)` (lines 1086-1109): the timeout, some
other raised exception, or a response whose `data` is a list of offers. -/
inductive AmadeusOutcome where
  | timeout
  | apiError (msg : String)
  | ok (data : List JVal)

/-- Collaborators and ambient inputs of the dispatch engine.  `configured`
models membership (with `active`) in the `api_config` endpoint list;
`http endpoint method` the performed request (error = raised exception);
`legacy` the hardcoded `call_api_legacy` fallback; `flightHandler` the
optional enhanced handler result (lines 1006-1024), `amadeus` the optional
built-in client and its call outcome; `timestamp`, `workflow_id`,
`duration_ms` and `affiliate` stand for wall clock, uuid generation and the
Travelpayouts environment variables. -/
structure CapEnv where
  configured : String → Bool
  http : String → String → Except String HttpResp
  legacy : String → String → JVal → JVal
  ragStore : RagStore
  flightHandler : Option JVal
  amadeus : Option AmadeusOutcome
  timestamp : String
  workflow_id : String
  duration_ms : Int
  affiliate : Option String

/-- Lines 735-745 / 992-1001: the exception Failure object of `call_api`. -/
def apiExnObj (endpoint method msg timestamp : String) : JVal :=
  .obj [("endpoint", .s endpoint), ("method", .s method), ("error", .s msg),
        ("timestamp", .s timestamp), ("status", .s "error")]

/-- Lines 679-691: the dog endpoint reshaping (description literal has its
apostrophe elided). -/
def dogDescription : String := "Heres a random dog picture!"

/-- Lines 700-710: the Failure built for a non-200 response status. -/
def apiStatusErrorObj (endpoint method : String) (status : Nat) (text timestamp : String) : JVal :=
  .obj [("endpoint", .s endpoint), ("method", .s method),
        ("error", .s ("API returned status " ++ toString status)),
        ("response_text", .s (pyTake text 1000)),
        ("timestamp", .s timestamp), ("status", .s "error")]

/-- Lines 658-710: the configured GET path of `call_api`.  URL templating and
auth header insertion (lines 616-655) only shape the request, which is
absorbed into the `HttpResp` argument. -/
def call_api_get (endpoint method : String) (resp : HttpResp) (timestamp : String) : JVal :=
  if resp.status = 200 then
    match resp.parsed with
    | none =>
      .obj [("endpoint", .s endpoint), ("method", .s method),
            ("error", .s "Invalid JSON response"),
            ("response_text", .s (pyTake resp.text 1000)),
            ("timestamp", .s timestamp), ("status", .s "error")]
    | some data =>
      match (if endpoint = "dog" then jGet data "message" else none) with
      | some msg =>
        .obj [("endpoint", .s endpoint), ("method", .s method),
              ("response", .obj [("image_url", msg),
                                 ("status", (jGet data "status").getD (.s "success")),
                                 ("description", .s dogDescription)]),
              ("timestamp", .s timestamp), ("status", .s "success"),
              ("response_type", .s "image")]
      | none =>
        .obj [("endpoint", .s endpoint), ("method", .s method),
              ("response", data),
              ("timestamp", .s timestamp), ("status", .s "success")]
  else
    apiStatusErrorObj endpoint method resp.status resp.text timestamp

/-- The flight query extracted from `params` (lines 1036-1046). -/
structure FlightQuery where
  origin : String
  destination : String
  departure_date : Option String
  return_date : Option String
  adults : Int
  children : Int
  infants : Int
  travel_class : String
  nonstop_only : Bool
  max_price : Option Int
  trip_type : String

/-- Lines 1036-1046: parameter extraction (`.upper()[:3]` on airport codes;
`trip_type` defaults on the presence of `return_date`). -/
def parse_flight_query (p : JVal) : FlightQuery :=
  let return_date := jGetStr p "return_date"
  { origin := pyTake (pyUpper (jGetStrD p "origin" "")) 3
    destination := pyTake (pyUpper (jGetStrD p "destination" "")) 3
    departure_date := jGetStr p "departure_date"
    return_date := return_date
    adults := jGetIntD p "adults" 1
    children := jGetIntD p "children" 0
    infants := jGetIntD p "infants" 0
    travel_class := pyUpper (jGetStrD p "travel_class" "ECONOMY")
    nonstop_only := jTruthy ((jGet p "nonstop_only").getD (.b false))
    max_price := match jGet p "max_price" with | some (.n i) => some i | _ => none
    trip_type := jGetStrD p "trip_type"
      (if (return_date.getD "") ≠ "" then "roundtrip" else "oneway") }

/-- The request sent to the Amadeus client (lines 1062-1082): required fields
plus the result cap `max`, and the optional fields added conditionally. -/
structure AmadeusSearchParams where
  originLocationCode : String
  destinationLocationCode : String
  departureDate : String
  adults : Int
  max : Nat
  returnDate : Option String
  children : Option Int
  infants : Option Int
  travelClass : Option String
  nonStop : Bool
  maxPrice : Option Int

/-- Lines 1062-1082: building the outgoing search request.  Line 1067 caps
results at 5 (comment in source: limit to 5 results for voice interface). -/
def mk_search_params (q : FlightQuery) : AmadeusSearchParams :=
  { originLocationCode := q.origin
    destinationLocationCode := q.destination
    departureDate := q.departure_date.getD ""
    adults := q.adults
    max := 5
    returnDate := if (q.return_date.getD "") ≠ "" then q.return_date else none
    children := if q.children > 0 then some q.children else none
    infants := if q.infants > 0 then some q.infants else none
    travelClass := if q.travel_class ≠ "ECONOMY" then some q.travel_class else none
    nonStop := q.nonstop_only
    maxPrice := q.max_price }

/-- Line 1094: the bound of `asyncio.wait_for` around the Amadeus call, in
seconds. -/
def flight_search_timeout : Nat := 20

/-- Lines 1098-1102: the Failure returned when the Amadeus call times out
(caught `asyncio.TimeoutError`; the loop is not crashed). -/
def flightTimeoutObj : JVal :=
  .obj [("endpoint", .s "flight_search"),
        ("error", .s "Flight search is taking longer than expected. Please try again."),
        ("status", .s "error")]

/-- Lines 1141-1211: parse one flight offer; `none` models every `continue`
branch (non-dict offer, missing or malformed itineraries or segments, a
parse exception).  Per-person price float formatting is not modelled: the
field carries the fallback text of the `except` branch (lines 1183-1184). -/
def parseOffer (q : FlightQuery) (affiliate : Option String) (offer : JVal) : Option JVal :=
  match offer with
  | .obj _ =>
    let price_info := (jGet offer "price").getD (.obj [])
    let price := match price_info with
      | .obj _ => jGetStrD price_info "total" "N/A"
      | _ => "N/A"
    let currency := match price_info with
      | .obj _ => jGetStrD price_info "currency" "USD"
      | _ => "USD"
    match jGet offer "itineraries" with
    | some (.arr (it0 :: _)) =>
      let first_itinerary := match it0 with | .obj _ => it0 | _ => .obj []
      (match jGet first_itinerary "segments" with
       | some (.arr (s0 :: rest)) =>
         let first_segment := match s0 with | .obj _ => s0 | _ => .obj []
         let departure_info := (jGet first_segment "departure").getD (.obj [])
         let arrival_info := (jGet first_segment "arrival").getD (.obj [])
         let base : List (String × JVal) :=
           [("airline", .s (jGetStrD first_segment "carrierCode" "Unknown")),
            ("price", .s (currency ++ " " ++ price)),
            ("price_per_person", .s (currency ++ " " ++ price)),
            ("departure", .s (jGetStrD departure_info "at" "N/A")),
            ("arrival", .s (jGetStrD arrival_info "at" "N/A")),
            ("duration", .s (jGetStrD first_itinerary "duration" "N/A")),
            ("stops", .n rest.length),
            ("travel_class", .s q.travel_class),
            ("trip_type", .s q.trip_type)]
         some (.obj (match affiliate with
                     | some url => base ++ [("booking_url", .s url)]
                     | none => base))
       | _ => none)
    | _ => none
  | _ => none

/-- Line 1141: the response parser walks `response.data[:5]`, keeping at most
one flight per offer. -/
def flight_results (q : FlightQuery) (affiliate : Option String) (data : List JVal) : List JVal :=
  (data.take 5).filterMap (parseOffer q affiliate)

/-- Lines 1123-1138: the Success returned when `response.data` is empty
(`flights` is the empty list, `passengers` a human-readable string). -/
def flightNoneObj (q : FlightQuery) : JVal :=
  .obj [("endpoint", .s "flight_search"), ("method", .s "POST"),
        ("response", .obj
          [("origin", .s q.origin), ("destination", .s q.destination),
           ("departure_date", .s (q.departure_date.getD "")),
           ("return_date", match q.return_date with | some r => .s r | none => .null),
           ("passengers", .s (toString q.adults ++ " adults"
             ++ (if q.children ≠ 0 then ", " ++ toString q.children ++ " children" else "")
             ++ (if q.infants ≠ 0 then ", " ++ toString q.infants ++ " infants" else ""))),
           ("travel_class", .s q.travel_class),
           ("flights", .arr []),
           ("message", .s "No flights found for the specified route and date.")]),
        ("status", .s "success")]

/-- Lines 1213-1239: the Success object built from the parsed offers. -/
def flightSuccessObj (q : FlightQuery) (flights : List JVal) (timestamp : String) : JVal :=
  .obj [("endpoint", .s "flight_search"), ("method", .s "POST"),
        ("response", .obj
          [("origin", .s q.origin), ("destination", .s q.destination),
           ("departure_date", .s (q.departure_date.getD "")),
           ("return_date", match q.return_date with | some r => .s r | none => .null),
           ("flights", .arr flights),
           ("total_results", .n flights.length),
           ("passengers", .obj [("adults", .n q.adults), ("children", .n q.children),
                                ("infants", .n q.infants),
                                ("total", .n (q.adults + q.children + q.infants))]),
           ("search_criteria", .obj
             [("travel_class", .s q.travel_class),
              ("nonstop_only", .b q.nonstop_only),
              ("max_price", match q.max_price with | some m => .n m | none => .null),
              ("trip_type", .s q.trip_type)]),
           ("message", .s ("Found " ++ toString flights.length ++ " "
             ++ pyLower q.travel_class ++ " "
             ++ (if q.nonstop_only then "non-stop " else "") ++ "flights from "
             ++ q.origin ++ " to " ++ q.destination ++ " for "
             ++ toString (q.adults + q.children + q.infants) ++ " passenger(s)"))]),
        ("timestamp", .s timestamp), ("status", .s "success")]

/-- `RealtimeAPIProxy.search_flights` (lines 1003-1247).  The enhanced
handler delegation (lines 1006-1024) is taken when `env.flightHandler` is
set; otherwise the built-in Amadeus path runs: missing client (lines
1028-1033), parameter validation (lines 1048-1054), the 20-second timeout
(lines 1086-1102), raised API errors (lines 1103-1109), the empty-data
Success (lines 1123-1138) and the parsed offers (lines 1140-1239). -/
def search_flights (env : CapEnv) (p : JVal) : JVal :=
  match env.flightHandler with
  | some result =>
    if jIsStr result "status" "success" then
      .obj [("endpoint", .s "amadeus_flight_search"), ("method", .s "POST"),
            ("response", result), ("timestamp", .s env.timestamp),
            ("status", .s "success")]
    else
      .obj [("endpoint", .s "amadeus_flight_search"),
            ("error", .s (jGetStrD result "message" "Flight search failed")),
            ("error_code", .s (jGetStrD result "error_code" "UNKNOWN")),
            ("timestamp", .s env.timestamp), ("status", .s "error")]
  | none =>
    match env.amadeus with
    | none =>
      .obj [("endpoint", .s "flight_search"),
            ("error", .s "Flight search not configured. Please set up Amadeus API credentials."),
            ("status", .s "error")]
    | some outcome =>
      let q := parse_flight_query p
      if q.origin = "" ∨ q.destination = "" ∨ (q.departure_date.getD "") = "" then
        .obj [("endpoint", .s "flight_search"),
              ("error", .s "Missing required parameters: origin, destination, and departure_date"),
              ("status", .s "error")]
      else
        match outcome with
        | .timeout => flightTimeoutObj
        | .apiError msg =>
          .obj [("endpoint", .s "flight_search"),
                ("error", .s ("Failed to search flights: " ++ msg)),
                ("status", .s "error")]
        | .ok data =>
          if data.isEmpty then
            flightNoneObj q
          else
            flightSuccessObj q (flight_results q env.affiliate data) env.timestamp

/-- `RealtimeAPIProxy.call_api` (lines 578-748): configuration lookup (lines
586-595), the Amadeus special case (lines 597-612), the configured GET
(lines 657-710) and POST (lines 711-734) requests, the exception Failure
(lines 735-745), and the legacy fallthrough (line 748, also reached by a
POST with a non-200 status or an unhandled method).  A raised request
exception is the `Except.error` case of `env.http`. -/
def call_api (env : CapEnv) (endpoint method : String) (params : JVal) : JVal :=
  if ¬ env.configured endpoint then
    env.legacy endpoint method params
  else if endpoint = "amadeus_flight_search" then
    search_flights env params
  else
    match env.http endpoint method with
    | .error e => apiExnObj endpoint method e env.timestamp
    | .ok resp =>
      if pyUpper method = "GET" then
        call_api_get endpoint method resp env.timestamp
      else if pyUpper method = "POST" ∧ resp.status = 200 then
        match resp.parsed with
        | some data =>
          .obj [("endpoint", .s endpoint), ("method", .s method),
                ("response", data), ("timestamp", .s env.timestamp),
                ("status", .s "success")]
        | none => apiExnObj endpoint method "Invalid JSON response" env.timestamp
      else
        env.legacy endpoint method params

/-! ## Session registry and transports -/

/-- The process-wide mutable state of the module-level `proxy` singleton
(line 1463 `proxy = RealtimeAPIProxy()`): the one `openai_ws` attribute
(line 57) and the keys of `client_connections` (line 58).  Transports are
identified by numbers. -/
structure ProxyState where
  openai_ws : Option Nat
  connections : List String
deriving DecidableEq

/-- The state before any client connects (lines 53-58). -/
def initProxy : ProxyState := { openai_ws := none, connections := [] }

/-- `websocket_endpoint` connect phase (lines 1604-1614): the session id is
registered in `client_connections`, then `connect_to_openai` (line 187)
assigns the fresh upstream transport `t` to the one `proxy.openai_ws`
attribute, whatever it held before. -/
def ws_connect (s : ProxyState) (sid : String) (t : Nat) : ProxyState :=
  { openai_ws := some t, connections := sid :: s.connections }

/-- `websocket_endpoint` teardown (lines 1628-1632): `proxy.openai_ws` is
closed but the attribute keeps its value (it is never reset to `None`), and
the session id is removed from `client_connections`. -/
def ws_disconnect (s : ProxyState) (sid : String) : ProxyState :=
  { openai_ws := s.openai_ws, connections := s.connections.erase sid }

/-! ## Messages of the two transports -/

/-- Events sent to the upstream OpenAI transport. -/
inductive UpMsg where
  | inputAudioAppend (audio : String)
  | inputAudioCommit
  | conversationItemText (text : String)
  | functionCallOutput (call_id : String) (output : JVal)
  | responseCreate
  | sessionUpdate

/-- Messages sent to the browser client. -/
inductive ClientMsg where
  | connected (sid : String)
  | textResponse (t : String)
  | audioResponse (a : String)
  | transcriptionPartial (t : String) (role : String)
  | transcription (t : String) (role : String)
  | transcriptionComplete (t : String) (role : String)
  | functionCall (name : String) (args : JVal)
  | functionResult (name : String) (result : JVal)
  | speechStarted
  | speechStopped
  | responseDone
  | audioDone
  | responseInterrupted
  | responseCancelled
  | audioFormatError
  | errorMsg (e : String)

/-! ## Upstream Session Controller -/

/-- Line 252: `configure_openai_session` always requests server-side voice
activity detection (`turn_detection.type = "server_vad"`, lines 251-257;
the numeric tuning fields are floats and are not modelled). -/
def configured_turn_detection_type : String := "server_vad"

/-- `RealtimeAPIProxy.forward_audio_to_openai` (lines 1351-1386): WebM is
rejected with a client error; PCM16 (or an absent/empty format) is appended
to the input buffer and then, unconditionally, a manual
`input_audio_buffer.commit` is sent (lines 1370-1378).  `wsOpen` models the
truthiness of `self.openai_ws` (line 1353). -/
def forward_audio_to_openai (wsOpen : Bool) (audio : String) (format? : Option String) :
    List UpMsg × List ClientMsg :=
  if ¬ wsOpen then ([], [])
  else if format? = some "webm" then ([], [.audioFormatError])
  else if format? = some "pcm16" ∨ format? = none ∨ format? = some "" then
    ([.inputAudioAppend audio, .inputAudioCommit], [])
  else ([], [])

/-! ## Function-call dispatch: `handle_function_call` (lines 371-448) -/

/-- The message of the `UnboundLocalError` raised at line 428 when
`result_output` was assigned on no branch (see `handle_function_call`). -/
def unboundResultOutputMsg : String :=
  "cannot access local variable result_output where it is not associated with a value"

/-- Lines 405-414: the image envelope built for an image-bearing result.
The note f-string has its apostrophes elided; `render` is the str()
interpolation of the description value. -/
def imageNote (endpoint description url : String) : String :=
  "I have retrieved an image from " ++ endpoint ++ ". The image shows: "
    ++ description ++ ". The image URL is: " ++ url

/-- String rendering of a JSON value interpolated into the note (only string
descriptions occur on the dog path). -/
def jRenderStr : JVal → String
  | .s t => t
  | _ => ""

/-- `RealtimeAPIProxy.handle_function_call` (lines 371-448).  Returns the
`result` value together with the upstream sends, the client sends and the
capability invocations performed, in order.  Upstream sends happen only when
`self.openai_ws` is truthy (line 432); the client notification goes through
`send_to_client`, which requires the session id to be registered (lines
1249-1255).  NOTE a slip in the source: the `else` at line 417 belongs to
the `if function_name == ...` chain, so on the `search_knowledge_base` and
`execute_workflow` branches `result_output` is never assigned; building the
function output at line 428 then raises `UnboundLocalError`, the `except` at
line 444 swallows it, and no upstream or client send happens on those
branches. -/
def handle_function_call (env : CapEnv) (ps : ProxyState) (sid : String)
    (function_name : String) (args : JVal) (call_id : String) :
    JVal × List UpMsg × List ClientMsg × List (String × String) :=
  let sendBack (result result_output : JVal) (invs : List (String × String)) :
      JVal × List UpMsg × List ClientMsg × List (String × String) :=
    (result,
     (if ps.openai_ws.isSome then
        [.functionCallOutput call_id result_output, .responseCreate]
      else []),
     (if ps.connections.contains sid then [.functionResult function_name result] else []),
     invs)
  if function_name = "search_knowledge_base" then
    let _result := search_rag env.ragStore (jGetStrD args "query" "")
                    (jGetIntD args "top_k" 5).toNat
    (JVal.obj [("error", .s unboundResultOutputMsg)], [], [],
      [("search_knowledge_base", call_id)])
  else if function_name = "execute_workflow" then
    let _result := execute_workflow (jGetStrD args "workflow_type" "")
                    ((jGet args "parameters").getD (.obj []))
                    env.workflow_id env.duration_ms
    (JVal.obj [("error", .s unboundResultOutputMsg)], [], [],
      [("execute_workflow", call_id)])
  else if function_name = "call_external_api" then
    let result := call_api env (jGetStrD args "endpoint" "")
                    (jGetStrD args "method" "GET")
                    ((jGet args "params").getD (.obj []))
    -- lines 406-416: reshape image-bearing results
    let response := (jGet result "response").getD (.obj [])
    let result_output :=
      if jIsStr result "response_type" "image"
          ∧ jTruthy ((jGet response "image_url").getD .null) then
        JVal.obj [("type", .s "image"),
                  ("url", (jGet response "image_url").getD .null),
                  ("description", (jGet response "description").getD
                     (.s "Image retrieved successfully")),
                  ("note", .s (imageNote (jGetStrD args "endpoint" "")
                     (jRenderStr ((jGet response "description").getD (.s "A picture")))
                     (jRenderStr ((jGet response "image_url").getD .null))))]
      else result
    sendBack result result_output [("call_external_api", call_id)]
  else
    -- line 417: the chain-level else assigns result_output = result = {}
    sendBack (JVal.obj []) (JVal.obj []) []

/-! ## Upstream → client pump: `handle_openai_messages` (lines 1648-1888) -/

/-- The upstream events the pump switches on.  Events carry the fields the
handler reads; `inputTranscriptionCompleted` carries the transcript already
extracted from the item content (lines 1759-1773); event types without a
branch are `unhandled` and ignored. -/
inductive OpenAIEvent where
  | responseTextDelta (d : String)
  | responseAudioDelta (d : String)
  | audioTranscriptDelta (d : String)
  | audioTranscriptDone (transcript : String)
  | responseCreated
  | responseDoneEv
  | contentPartDone (partType : String)
  | inputTranscriptionCompleted (transcript : String)
  | itemCreatedUser (transcript : Option String)
  | inputTranscriptionPartial (transcript : String)
  | functionCallArgsDone (name : String) (args : JVal) (call_id : String)
  | speechStarted
  | speechStopped
  | itemTruncated
  | responseCancelled
  | errorEvent (message : String)
  | unhandled (t : String)

/-- The handler-local state of one `handle_openai_messages` task (lines
1650-1652). -/
structure HState where
  last_user_transcript : String
  pending_user_transcript : Bool
deriving DecidableEq

/-- Lines 1650-1652: both locals start cleared. -/
def initHState : HState := { last_user_transcript := "", pending_user_transcript := false }


/-- One iteration of `handle_openai_messages` (lines 1654-1885): switch on
the event type and produce the client sends, the upstream sends and the
capability invocations (name, call id), in order.  The proxy state is read
(for `self.openai_ws` truthiness and `send_to_client` registration) and
returned unchanged: no branch of the pump mutates the registry or the
upstream handle. -/
def handleOpenAIEvent (env : CapEnv) (ps : ProxyState) (sid : String) (st : HState)
    (ev : OpenAIEvent) :
    ProxyState × HState × List ClientMsg × List UpMsg × List (String × String) :=
  match ev with
  | .responseTextDelta d => (ps, st, [.textResponse d], [], [])
  | .responseAudioDelta d => (ps, st, [.audioResponse d], [], [])
  | .audioTranscriptDelta d =>
    -- lines 1676-1692: flush the pending user transcript first, then the delta
    if st.pending_user_transcript ∧ st.last_user_transcript ≠ "" then
      (ps, { st with pending_user_transcript := false },
       [.transcriptionComplete st.last_user_transcript "user", .transcription d "assistant"],
       [], [])
    else
      (ps, st, [.transcription d "assistant"], [], [])
  | .audioTranscriptDone t =>
    if t ≠ "" then (ps, st, [.transcriptionComplete t "assistant"], [], [])
    else (ps, st, [], [], [])
  | .responseCreated =>
    -- lines 1705-1714: flush the pending user transcript
    if st.pending_user_transcript ∧ st.last_user_transcript ≠ "" then
      (ps, { st with pending_user_transcript := false },
       [.transcriptionComplete st.last_user_transcript "user"], [], [])
    else (ps, st, [], [], [])
  | .responseDoneEv => (ps, st, [.responseDone], [], [])
  | .contentPartDone partType =>
    if partType = "audio" then (ps, st, [.audioDone], [], []) else (ps, st, [], [], [])
  | .inputTranscriptionCompleted t =>
    if t ≠ "" then (ps, st, [.transcriptionComplete t "user"], [], [])
    else (ps, st, [], [], [])
  | .itemCreatedUser t? =>
    (match t? with
     | some t => if t ≠ "" then (ps, st, [.transcriptionComplete t "user"], [], [])
                 else (ps, st, [], [], [])
     | none => (ps, st, [], [], []))
  | .inputTranscriptionPartial t =>
    -- lines 1801-1814: remember the partial and mark it pending
    if t ≠ "" then
      (ps, { last_user_transcript := t, pending_user_transcript := true },
       [.transcriptionPartial t "user"], [], [])
    else (ps, st, [], [], [])
  | .functionCallArgsDone name args call_id =>
    -- lines 1816-1830: notify the client, then dispatch.  No record of the
    -- call id is kept anywhere: every received event dispatches.
    let r := handle_function_call env ps sid name args call_id
    (ps, st, .functionCall name args :: r.2.2.1, r.2.1, r.2.2.2)
  | .speechStarted => (ps, st, [.speechStarted], [], [])
  | .speechStopped =>
    -- lines 1850-1859: arm the pending flag when a partial transcript exists
    if st.last_user_transcript ≠ "" then
      (ps, { st with pending_user_transcript := true }, [.speechStopped], [], [])
    else (ps, st, [.speechStopped], [], [])
  | .itemTruncated => (ps, st, [.responseInterrupted], [], [])
  | .responseCancelled => (ps, st, [.responseCancelled], [], [])
  | .errorEvent m =>
    -- lines 1875-1885: only keyword-matched severe errors reach the client
    if hasSub (pyLower m) "critical" ∨ hasSub (pyLower m) "failed" then
      (ps, st, [.errorMsg m], [], [])
    else (ps, st, [], [], [])
  | .unhandled _ => (ps, st, [], [], [])

/-- The pump over a list of inbound events, concatenating effects in arrival
order (the `async for` loop of line 1655). -/
def processEvents (env : CapEnv) (ps : ProxyState) (sid : String) (st : HState) :
    List OpenAIEvent → HState × List ClientMsg × List UpMsg × List (String × String)
  | [] => (st, [], [], [])
  | ev :: rest =>
    let r := handleOpenAIEvent env ps sid st ev
    let r2 := processEvents env ps sid r.2.1 rest
    (r2.1, r.2.2.1 ++ r2.2.1, r.2.2.2.1 ++ r2.2.2.1, r.2.2.2.2 ++ r2.2.2.2)

/-- The number of capability invocations recorded for one call id. -/
def invocationCount (call_id : String) (invs : List (String × String)) : Nat :=
  (invs.filter (fun p => p.2 = call_id)).length

/-- The number of `function_call_output` sends for one call id. -/
def outputSendCount (call_id : String) (ups : List UpMsg) : Nat :=
  (ups.filter (fun m => match m with
    | .functionCallOutput c _ => c = call_id
    | _ => false)).length

/-- The number of finalized user transcripts with the given text among the
client sends. -/
def userFinalCount (t : String) (msgs : List ClientMsg) : Nat :=
  (msgs.filter (fun m => match m with
    | .transcriptionComplete u r => u = t ∧ r = "user"
    | _ => false)).length

/-! ## Concrete collaborator environments used by witnesses and
counterexamples -/

/-- A benign environment: every endpoint configured, every request answered
with an empty 200 JSON object, no knowledge base, a flight client whose
search returns no offers. -/
def demoEnv : CapEnv :=
  { configured := fun _ => true
    http := fun _ _ => .ok ({ status := 200, text := "()", parsed := some (.obj []) } : HttpResp)
    legacy := fun _ _ _ => .obj []
    ragStore := none
    flightHandler := none
    amadeus := some (.ok [])
    timestamp := "2025-01-01T00:00:00"
    workflow_id := "wf-0001"
    duration_ms := 2000
    affiliate := none }

/-- A proxy state with one registered session and a live upstream handle. -/
def demoProxy : ProxyState := { openai_ws := some 1, connections := ["s1"] }

end VoiceBot

namespace VoiceBot

/-! # Claims -/

/-- C3 counterexample.  Connect session "A" (upstream transport 1), then
session "B" (upstream transport 2): B's connect overwrites the one global
`proxy.openai_ws`, so the transport session "A" obtained is gone while "A"
is still registered — the upstream connection is shared and overwritten, not
exclusively owned.  After both sessions disconnect the handle is still
non-null, so non-null does not coincide with any session being active. -/
theorem C3_counterexample_shared_handle :
    ((ws_connect (ws_connect initProxy "A" 1) "B" 2).openai_ws ≠ some 1
      ∧ "A" ∈ (ws_connect (ws_connect initProxy "A" 1) "B" 2).connections)
    ∧ ((ws_disconnect (ws_disconnect (ws_connect (ws_connect initProxy "A" 1) "B" 2) "B")
          "A").connections = []
      ∧ (ws_disconnect (ws_disconnect (ws_connect (ws_connect initProxy "A" 1) "B" 2) "B")
          "A").openai_ws ≠ none) := by
  refine ⟨⟨?_, ?_⟩, ?_, ?_⟩ <;> simp [ws_connect, ws_disconnect, initProxy]

/-- C3 amended: the upstream transport handle is a single process-global
attribute of the `proxy` singleton shared by all sessions.  Connecting any
new session overwrites it regardless of the sessions already registered, and
teardown never resets it to null, so there is no per-session exclusive
ownership and no per-session phase for it to track. -/
theorem C3_global_upstream_handle (s : ProxyState) (sid : String) (t : Nat) :
    (ws_connect s sid t).openai_ws = some t
    ∧ (ws_connect s sid t).connections = sid :: s.connections
    ∧ (ws_disconnect s sid).openai_ws = s.openai_ws :=
  ⟨rfl, rfl, rfl⟩

/-- C4: the session is configured with server-side VAD (lines 251-257), yet
`forward_audio_to_openai` follows every PCM16 `input_audio_buffer.append`
with a manual `input_audio_buffer.commit` (lines 1370-1378) — the claimed
append-only behaviour under VAD does not hold on the JSON audio path. -/
theorem C4_commit_follows_append_under_vad (a : String) :
    configured_turn_detection_type = "server_vad"
    ∧ forward_audio_to_openai true a (some "pcm16")
        = ([.inputAudioAppend a, .inputAudioCommit], []) := by
  exact ⟨rfl, by simp [forward_audio_to_openai]⟩

/-- The `steps_executed` list of a workflow result. -/
def stepsExecutedOf (result : JVal) : Option JVal := jGet result "steps_executed"

/-- C8: `execute_workflow` always returns a Success-shaped object: status
"completed", no error field; an unknown workflow type yields an empty
`steps_executed` list; and each of the four canonical workflows yields
exactly its fixed ordered step list, of length 4, 5, 5 and 4 respectively. -/
theorem C8_execute_workflow_total (wt : String) (p : JVal) (wid : String) (dur : Int) :
    (jGetStr (execute_workflow wt p wid dur) "status" = some "completed"
      ∧ jHasError (execute_workflow wt p wid dur) = false)
    ∧ (wt ∉ ["customer_onboarding", "support_ticket", "order_processing", "data_analysis"] →
        stepsExecutedOf (execute_workflow wt p wid dur) = some (.arr []))
    ∧ (stepsExecutedOf (execute_workflow "customer_onboarding" p wid dur)
        = some (.arr (["verify_identity", "create_account", "send_welcome_email",
                       "schedule_followup"].map .s))
      ∧ stepsExecutedOf (execute_workflow "support_ticket" p wid dur)
        = some (.arr (["categorize_issue", "check_knowledge_base", "create_ticket",
                       "assign_agent", "send_confirmation"].map .s))
      ∧ stepsExecutedOf (execute_workflow "order_processing" p wid dur)
        = some (.arr (["validate_order", "check_inventory", "process_payment",
                       "generate_invoice", "arrange_shipping"].map .s))
      ∧ stepsExecutedOf (execute_workflow "data_analysis" p wid dur)
        = some (.arr (["fetch_data", "clean_data", "run_analysis",
                       "generate_report"].map .s)))
    ∧ (∀ ws, workflows.lookup wt = some ws → 4 ≤ ws.length ∧ ws.length ≤ 5) := by
  refine ⟨⟨?_, ?_⟩, ?_, ⟨rfl, rfl, rfl, rfl⟩, ?_⟩
  · simp [execute_workflow, jGetStr, jGet, List.lookup]
  · simp [execute_workflow, jHasError, jGet, List.lookup]
  · intro h
    simp only [List.mem_cons, List.not_mem_nil, or_false, not_or] at h
    obtain ⟨h1, h2, h3, h4⟩ := h
    have b1 : (wt == "customer_onboarding") = false := by simp [h1]
    have b2 : (wt == "support_ticket") = false := by simp [h2]
    have b3 : (wt == "order_processing") = false := by simp [h3]
    have b4 : (wt == "data_analysis") = false := by simp [h4]
    simp [execute_workflow, stepsExecutedOf, jGet, workflows, List.lookup, b1, b2, b3, b4]
  · intro ws hws
    simp only [workflows, List.lookup] at hws
    by_cases h1 : (wt == "customer_onboarding") = true
    · simp only [h1] at hws
      cases hws; simp
    · by_cases h2 : (wt == "support_ticket") = true
      · simp only [h1, h2] at hws
        cases hws; simp
      · by_cases h3 : (wt == "order_processing") = true
        · simp only [h1, h2, h3] at hws
          cases hws; simp
        · by_cases h4 : (wt == "data_analysis") = true
          · simp only [h1, h2, h3, h4] at hws
            cases hws; simp
          · simp only [Bool.not_eq_true] at h1 h2 h3 h4
            simp [h1, h2, h3, h4] at hws

/-- A duplicate-prone function-call event: `call_external_api` against the
configured `joke` endpoint, call id `call_1`. -/
def dupEvent : OpenAIEvent :=
  .functionCallArgsDone "call_external_api"
    (.obj [("endpoint", .s "joke"), ("params", .obj [])]) "call_1"

/-- C1 counterexample.  The pump keeps no record of call identifiers (its
only locals are the two transcript fields), so receiving the
`function_call_arguments.done` event twice with call id `call_1` performs
the capability invocation twice and sends the function output upstream
twice — not exactly once as claimed. -/
theorem C1_counterexample_duplicate_not_ignored :
    invocationCount "call_1"
        (processEvents demoEnv demoProxy "s1" initHState [dupEvent, dupEvent]).2.2.2 = 2
    ∧ outputSendCount "call_1"
        (processEvents demoEnv demoProxy "s1" initHState [dupEvent, dupEvent]).2.2.1 = 2
    ∧ invocationCount "call_1"
        (processEvents demoEnv demoProxy "s1" initHState [dupEvent, dupEvent]).2.2.2 ≠ 1
    ∧ outputSendCount "call_1"
        (processEvents demoEnv demoProxy "s1" initHState [dupEvent, dupEvent]).2.2.1 ≠ 1 := by
  refine ⟨?_, ?_, ?_, ?_⟩ <;> decide

/-- C1 amended: dispatch is per-event, never deduplicated — no record of
call identifiers exists, so a duplicated function-call-arguments-done event
is dispatched again, not ignored.  For each of the three known capability
names the capability is invoked exactly twice (once per event).  While the
upstream handle is live, the function output is sent exactly twice for
`call_external_api` and for unknown names (whose chain-level else still
builds an output), and zero times for `search_knowledge_base` and
`execute_workflow`, where the `result_output` slip (lines 417/428)
suppresses the send on every event. -/
theorem C1_duplicate_event_dispatches_twice (env : CapEnv) (ps : ProxyState)
    (sid call_id name : String) (args : JVal) (hws : ps.openai_ws.isSome = true) :
    invocationCount call_id
        (processEvents env ps sid initHState
          [.functionCallArgsDone name args call_id,
           .functionCallArgsDone name args call_id]).2.2.2
      = (if name = "search_knowledge_base" ∨ name = "execute_workflow"
            ∨ name = "call_external_api" then 2 else 0)
    ∧ outputSendCount call_id
        (processEvents env ps sid initHState
          [.functionCallArgsDone name args call_id,
           .functionCallArgsDone name args call_id]).2.2.1
      = (if name = "search_knowledge_base" ∨ name = "execute_workflow" then 0 else 2) := by
  by_cases h1 : name = "search_knowledge_base"
  · subst h1
    constructor <;>
      simp [processEvents, handleOpenAIEvent, handle_function_call, hws,
            invocationCount, outputSendCount, List.filter]
  · by_cases h2 : name = "execute_workflow"
    · subst h2
      constructor <;>
        simp [processEvents, handleOpenAIEvent, handle_function_call, hws,
              invocationCount, outputSendCount, List.filter]
    · by_cases h3 : name = "call_external_api"
      · subst h3
        constructor <;>
          simp [processEvents, handleOpenAIEvent, handle_function_call, hws,
                invocationCount, outputSendCount, List.filter]
      · constructor <;>
          simp [processEvents, handleOpenAIEvent, handle_function_call, hws,
                invocationCount, outputSendCount, List.filter, h1, h2, h3]

/-- C1 witness at a concrete input (the `call_external_api` case: two
invocations and two output sends). -/
theorem C1_duplicate_event_dispatches_twice_witness :
    demoProxy.openai_ws.isSome = true
    ∧ (invocationCount "call_1"
          (processEvents demoEnv demoProxy "s1" initHState [dupEvent, dupEvent]).2.2.2 = 2
        ∧ outputSendCount "call_1"
          (processEvents demoEnv demoProxy "s1" initHState [dupEvent, dupEvent]).2.2.1 = 2) :=
  ⟨by decide,
   by simpa [dupEvent] using
     C1_duplicate_event_dispatches_twice demoEnv demoProxy "s1" "call_1" "call_external_api"
       (.obj [("endpoint", .s "joke"), ("params", .obj [])]) (by decide)⟩

/-- C2: for a turn whose upstream event order is partial transcript, then
`speech_stopped`, then `response.created`, then the assistant transcript
delta, the finalized user transcript reaches the client exactly once and
before the assistant transcript delta; the pending flag is cleared at the
first finalizing signal (`response.created` here), so a later signal (the
trailing `response.created`) does not re-send it. -/
theorem C2_user_transcript_once_before_assistant (env : CapEnv) (ps : ProxyState)
    (sid t d : String) (ht : t ≠ "") :
    processEvents env ps sid initHState
        [.inputTranscriptionPartial t, .speechStopped, .responseCreated,
         .audioTranscriptDelta d, .responseCreated]
      = ({ last_user_transcript := t, pending_user_transcript := false },
         [.transcriptionPartial t "user", .speechStopped,
          .transcriptionComplete t "user", .transcription d "assistant"],
         [], [])
    ∧ userFinalCount t
        (processEvents env ps sid initHState
          [.inputTranscriptionPartial t, .speechStopped, .responseCreated,
           .audioTranscriptDelta d, .responseCreated]).2.1 = 1 := by
  have h : processEvents env ps sid initHState
      [.inputTranscriptionPartial t, .speechStopped, .responseCreated,
       .audioTranscriptDelta d, .responseCreated]
      = ({ last_user_transcript := t, pending_user_transcript := false },
         [.transcriptionPartial t "user", .speechStopped,
          .transcriptionComplete t "user", .transcription d "assistant"],
         [], []) := by
    simp [processEvents, handleOpenAIEvent, initHState, ht]
  refine ⟨h, ?_⟩
  rw [h]
  simp [userFinalCount, List.filter]

/-- C2 witness at a concrete input. -/
theorem C2_user_transcript_once_before_assistant_witness :
    ("hello there" : String) ≠ ""
    ∧ (processEvents demoEnv demoProxy "s1" initHState
          [.inputTranscriptionPartial "hello there", .speechStopped, .responseCreated,
           .audioTranscriptDelta "Hi!", .responseCreated]
        = ({ last_user_transcript := "hello there", pending_user_transcript := false },
           [.transcriptionPartial "hello there" "user", .speechStopped,
            .transcriptionComplete "hello there" "user", .transcription "Hi!" "assistant"],
           [], [])
       ∧ userFinalCount "hello there"
          (processEvents demoEnv demoProxy "s1" initHState
            [.inputTranscriptionPartial "hello there", .speechStopped, .responseCreated,
             .audioTranscriptDelta "Hi!", .responseCreated]).2.1 = 1) :=
  ⟨by decide,
   C2_user_transcript_once_before_assistant demoEnv demoProxy "s1" "hello there" "Hi!"
     (by decide)⟩

/-- C7: knowledge-base search semantics.  With no store, the result is the
not-initialized Failure; a raising store yields a Failure with the raised
message; a first search with zero documents triggers exactly one retry with
the keyword-reduced query (first three whitespace tokens of the lowercased
query); zero documents after the retry yield a Success with empty results,
count 0 and an explanatory message; any successful search path yields no
error field, and a non-empty retry result is used (its length is the
count). -/
theorem C7_rag_failure_only_when_unavailable
    (search : String → Nat → Except String (List Doc)) (query : String) (k : Nat) :
    (search_rag none query k = ragErrorObj "Knowledge base not initialized")
    ∧ (∀ e, search query k = .error e → search_rag (some search) query k = ragErrorObj e)
    ∧ (search query k = .ok [] → ragQueries search query k = [query, keywordReduce query])
    ∧ (∀ ds, search query k = .ok ds → ds ≠ [] → ragQueries search query k = [query])
    ∧ (search query k = .ok [] → search (keywordReduce query) k = .ok [] →
        search_rag (some search) query k
          = .obj [("query", .s query), ("results", .arr []), ("count", .n 0),
                  ("message", .s ragNoResultsMsg)])
    ∧ (search query k = .ok [] → ∀ ds2, search (keywordReduce query) k = .ok ds2 →
        jHasError (search_rag (some search) query k) = false
        ∧ (ds2 ≠ [] → jGet (search_rag (some search) query k) "count"
             = some (.n ds2.length)))
    ∧ (∀ ds, search query k = .ok ds → ds ≠ [] →
        jHasError (search_rag (some search) query k) = false) := by
  refine ⟨rfl, ?_, ?_, ?_, ?_, ?_, ?_⟩
  · intro e he
    simp [search_rag, he]
  · intro h0
    simp [ragQueries, h0]
  · intro ds h0 hne
    cases ds with
    | nil => exact absurd rfl hne
    | cons a l => simp [ragQueries, h0]
  · intro h0 h1
    simp [search_rag, h0, h1]
  · intro h0 ds2 h1
    cases ds2 with
    | nil =>
      constructor
      · simp [search_rag, h0, h1, jHasError, jGet, List.lookup]
      · intro hne; exact absurd rfl hne
    | cons a l =>
      constructor
      · simp [search_rag, h0, h1, jHasError, jGet, List.lookup]
      · intro _
        simp [search_rag, h0, h1, jGet, List.lookup]
  · intro ds h0 hne
    cases ds with
    | nil => exact absurd rfl hne
    | cons a l => simp [search_rag, h0, jHasError, jGet, List.lookup]

/-- C7 witness: a store that always returns zero documents. -/
theorem C7_rag_failure_only_when_unavailable_witness :
    (search_rag none "refund policy" 5 = ragErrorObj "Knowledge base not initialized")
    ∧ ((fun (_ : String) (_ : Nat) => (.ok [] : Except String (List Doc))) "refund policy" 5
         = .ok [] →
       ragQueries (fun _ _ => .ok []) "refund policy" 5
         = ["refund policy", keywordReduce "refund policy"])
    ∧ (search_rag (some (fun _ _ => .ok [])) "refund policy" 5
        = .obj [("query", .s "refund policy"), ("results", .arr []), ("count", .n 0),
                ("message", .s ragNoResultsMsg)]) :=
  ⟨(C7_rag_failure_only_when_unavailable (fun _ _ => .ok []) "refund policy" 5).1,
   fun _ => (C7_rag_failure_only_when_unavailable (fun _ _ => .ok []) "refund policy" 5).2.2.1 rfl,
   (C7_rag_failure_only_when_unavailable (fun _ _ => .ok []) "refund policy" 5).2.2.2.2.1
     rfl rfl⟩

/-- Lines 405-414: the envelope handed back upstream for the dog endpoint. -/
def dogImageEnvelope (url : String) : JVal :=
  .obj [("type", .s "image"), ("url", .s url), ("description", .s dogDescription),
        ("note", .s (imageNote "dog" dogDescription url))]

/-- C9: a 200 response `{"message": url}` from the image-bearing `dog`
endpoint is reshaped into a `{type, url, description, note}` envelope whose
`url` is the message URL and whose description is non-empty, and that
envelope (not the raw body) is the function output sent upstream. -/
theorem C9_image_result_reshaped (env : CapEnv) (ps : ProxyState)
    (sid call_id url body : String) (args : JVal)
    (hconf : env.configured "dog" = true)
    (hep : jGetStrD args "endpoint" "" = "dog")
    (hm : jGetStrD args "method" "GET" = "GET")
    (hhttp : env.http "dog" "GET"
      = .ok { status := 200, text := body, parsed := some (.obj [("message", .s url)]) })
    (hurl : url ≠ "")
    (hws : ps.openai_ws.isSome = true) :
    (handle_function_call env ps sid "call_external_api" args call_id).2.1
      = [.functionCallOutput call_id (dogImageEnvelope url), .responseCreate]
    ∧ jGetStr (dogImageEnvelope url) "url" = some url
    ∧ jGetStr (dogImageEnvelope url) "description" = some dogDescription
    ∧ dogDescription ≠ "" := by
  have hup : pyUpper "GET" = "GET" := by decide
  refine ⟨?_, ?_, ?_, by decide⟩
  · simp only [handle_function_call, hep, hm]
    simp [call_api, call_api_get, hconf, hhttp, hup, hws, hurl,
          dogImageEnvelope, dogDescription, imageNote, jRenderStr, jIsStr, jTruthy,
          jGet, List.lookup]
  · simp [dogImageEnvelope, jGetStr, jGet, List.lookup]
  · simp [dogImageEnvelope, jGetStr, jGet, List.lookup]

/-- An HTTP collaborator answering the dog image body. -/
def dogHttp : String → String → Except String HttpResp :=
  fun _ _ => .ok { status := 200, text := "",
                   parsed := some (.obj [("message", .s "http://x/img.png")]) }

/-- An environment whose HTTP requests answer the dog image body. -/
def envDog : CapEnv := { demoEnv with http := dogHttp }

/-- C9 witness at the concrete body of the claim. -/
theorem C9_image_result_reshaped_witness :
    ("http://x/img.png" : String) ≠ ""
    ∧ ((handle_function_call envDog demoProxy "s1" "call_external_api"
          (.obj [("endpoint", .s "dog"), ("params", .obj [])]) "call_3").2.1
        = [.functionCallOutput "call_3" (dogImageEnvelope "http://x/img.png"),
           .responseCreate]
       ∧ jGetStr (dogImageEnvelope "http://x/img.png") "url" = some "http://x/img.png"
       ∧ jGetStr (dogImageEnvelope "http://x/img.png") "description" = some dogDescription
       ∧ dogDescription ≠ "") :=
  ⟨by decide,
   C9_image_result_reshaped envDog demoProxy "s1" "call_3" "http://x/img.png" ""
     (.obj [("endpoint", .s "dog"), ("params", .obj [])])
     rfl rfl rfl rfl (by decide) rfl⟩

/-- The dispatch paths that await a capability provider which may never
return. -/
inductive ProviderPath where
  | knowledgeBase
  | externalApi
  | flightSearch
deriving DecidableEq

/-- Whether the code bounds its wait on the provider call: a bounded wait
raises a timeout after the given number of seconds; an unbounded wait blocks
the pump for as long as the provider runs. -/
inductive WaitBound where
  | bounded (seconds : Nat)
  | unbounded
deriving DecidableEq

/-- Traced from the source: only the built-in flight search wraps its
provider call in a bounded wait (`asyncio.wait_for(..., timeout=20.0)`,
line 1094, caught at lines 1096-1102).  `search_rag` calls the stores
synchronous `similarity_search` directly with no timeout (lines 469 and
477), so a store that never returns blocks the pump; `call_api` opens its
aiohttp session with no timeout argument (lines 657-734), so only the
library default (about 300 seconds, far outside 5-20) ever fires. -/
def provider_wait_bound : ProviderPath → WaitBound
  | .knowledgeBase => .unbounded
  | .externalApi => .unbounded
  | .flightSearch => .bounded flight_search_timeout

/-- Whether a wait bound exists and lies within the recommended 5-20
seconds. -/
def boundedWithinRecommendation : WaitBound → Bool
  | .bounded s => 5 ≤ s && s ≤ 20
  | .unbounded => false

/-- C5 counterexample.  The claim quantifies over every capability provider,
but only the flight-search path bounds its wait: the knowledge-base
similarity search and the external-API HTTP request have no configured
5-20 second bound, so a provider that never returns on those paths yields
no timeout Failure within the recommended bound — the dispatch awaits it
indefinitely (the pump blocks on the synchronous similarity search; the
HTTP path is cut off only by the aiohttp default of about 300 seconds). -/
theorem C5_counterexample_unbounded_provider_paths :
    boundedWithinRecommendation (provider_wait_bound .knowledgeBase) = false
    ∧ boundedWithinRecommendation (provider_wait_bound .externalApi) = false
    ∧ boundedWithinRecommendation (provider_wait_bound .flightSearch) = true := by
  refine ⟨rfl, rfl, by decide⟩

/-- C5 amended: only the built-in flight search bounds its provider call.
There a provider that never returns is cut off by the 20-second
`asyncio.wait_for` (within the recommended 5-20 seconds); the dispatch
yields the timeout Failure (status "error" with an explanatory message)
instead of raising, the function output and the response-continuation
trigger are still sent upstream, and the proxy state (registered session,
upstream handle) is untouched, so the session stays active.  The
knowledge-base and external-API paths set no such bound (see
`provider_wait_bound`): a never-returning provider there produces no
timeout Failure within the recommended bound. -/
theorem C5_timeout_bounded_only_for_flight_search (env : CapEnv) (ps : ProxyState)
    (sid call_id : String) (args p : JVal) (st : HState)
    (hfh : env.flightHandler = none)
    (ham : env.amadeus = some .timeout)
    (hconf : env.configured "amadeus_flight_search" = true)
    (hep : jGetStrD args "endpoint" "" = "amadeus_flight_search")
    (hp : jGet args "params" = some p)
    (ho : (parse_flight_query p).origin ≠ "")
    (hd : (parse_flight_query p).destination ≠ "")
    (hdd : ((parse_flight_query p).departure_date.getD "") ≠ "")
    (hws : ps.openai_ws.isSome = true) :
    handle_function_call env ps sid "call_external_api" args call_id
      = (flightTimeoutObj,
         [.functionCallOutput call_id flightTimeoutObj, .responseCreate],
         (if ps.connections.contains sid then
            [.functionResult "call_external_api" flightTimeoutObj]
          else []),
         [("call_external_api", call_id)])
    ∧ jGetStr flightTimeoutObj "status" = some "error"
    ∧ jGetStr flightTimeoutObj "error"
        = some "Flight search is taking longer than expected. Please try again."
    ∧ (5 ≤ flight_search_timeout ∧ flight_search_timeout ≤ 20)
    ∧ (handleOpenAIEvent env ps sid st
         (.functionCallArgsDone "call_external_api" args call_id)).1 = ps
    ∧ provider_wait_bound .flightSearch = .bounded flight_search_timeout
    ∧ provider_wait_bound .knowledgeBase = .unbounded
    ∧ provider_wait_bound .externalApi = .unbounded := by
  refine ⟨?_, by decide, by decide, by decide, rfl, rfl, rfl, rfl⟩
  simp only [handle_function_call, hep, hp, Option.getD_some]
  simp [call_api, search_flights, hconf, hfh, ham, ho, hd, hdd, hws, flightTimeoutObj,
        jIsStr, jGet, List.lookup]

/-- The concrete flight-search parameters used by witnesses. -/
def flightParams : JVal :=
  .obj [("origin", .s "JFK"), ("destination", .s "LAX"),
        ("departure_date", .s "2025-06-01")]

/-- The function-call arguments wrapping `flightParams`. -/
def flightArgs : JVal :=
  .obj [("endpoint", .s "amadeus_flight_search"), ("params", flightParams)]

/-- An environment whose Amadeus client call times out. -/
def envTimeout : CapEnv := { demoEnv with amadeus := some .timeout }

/-- C5 witness at a concrete input. -/
theorem C5_timeout_bounded_only_for_flight_search_witness :
    ((parse_flight_query flightParams).origin ≠ ""
      ∧ demoProxy.openai_ws.isSome = true)
    ∧ (handle_function_call envTimeout demoProxy "s1" "call_external_api" flightArgs "call_4"
        = (flightTimeoutObj,
           [.functionCallOutput "call_4" flightTimeoutObj, .responseCreate],
           (if demoProxy.connections.contains "s1" then
              [.functionResult "call_external_api" flightTimeoutObj]
            else []),
           [("call_external_api", "call_4")])
       ∧ jGetStr flightTimeoutObj "status" = some "error"
       ∧ jGetStr flightTimeoutObj "error"
           = some "Flight search is taking longer than expected. Please try again."
       ∧ (5 ≤ flight_search_timeout ∧ flight_search_timeout ≤ 20)
       ∧ (handleOpenAIEvent envTimeout demoProxy "s1" initHState
            (.functionCallArgsDone "call_external_api" flightArgs "call_4")).1
          = demoProxy
       ∧ provider_wait_bound .flightSearch = .bounded flight_search_timeout
       ∧ provider_wait_bound .knowledgeBase = .unbounded
       ∧ provider_wait_bound .externalApi = .unbounded) :=
  ⟨⟨by decide, by decide⟩,
   C5_timeout_bounded_only_for_flight_search envTimeout demoProxy "s1" "call_4"
     flightArgs flightParams initHState rfl rfl rfl rfl rfl (by decide) (by decide)
     (by decide) (by decide)⟩

/-- C10: for a successful built-in Amadeus search, the outgoing request caps
results at 5 (`max = 5`, line 1067) and the response parser walks only
`response.data[:5]` (line 1141), so the `flights` list of the result holds
at most 5 offers. -/
theorem C10_flights_list_capped_at_five (env : CapEnv) (p : JVal) (data : List JVal)
    (hfh : env.flightHandler = none)
    (ham : env.amadeus = some (.ok data))
    (ho : (parse_flight_query p).origin ≠ "")
    (hd : (parse_flight_query p).destination ≠ "")
    (hdd : ((parse_flight_query p).departure_date.getD "") ≠ "")
    (hne : data ≠ []) :
    (jGet (search_flights env p) "response").bind (fun r => jGet r "flights")
      = some (.arr (flight_results (parse_flight_query p) env.affiliate data))
    ∧ (flight_results (parse_flight_query p) env.affiliate data).length ≤ 5
    ∧ (mk_search_params (parse_flight_query p)).max = 5 := by
  refine ⟨?_, ?_, rfl⟩
  · have hne2 : data.isEmpty = false := by
      cases data with
      | nil => exact absurd rfl hne
      | cons a l => rfl
    simp [search_flights, hfh, ham, ho, hd, hdd, hne2, flightSuccessObj, jGet, List.lookup]
  · simp only [flight_results]
    refine le_trans (List.length_filterMap_le _ _) ?_
    rw [List.length_take]
    exact Nat.min_le_left _ _

/-- An environment whose Amadeus call answers seven (unparsable) offers. -/
def envOffers : CapEnv :=
  { demoEnv with amadeus := some (.ok [.obj [], .obj [], .obj [], .obj [], .obj [],
                                       .obj [], .obj []]) }

/-- C10 witness at a concrete input. -/
theorem C10_flights_list_capped_at_five_witness :
    ((parse_flight_query flightParams).origin ≠ "")
    ∧ ((jGet (search_flights envOffers flightParams) "response").bind
          (fun r => jGet r "flights")
        = some (.arr (flight_results (parse_flight_query flightParams) envOffers.affiliate
                       [.obj [], .obj [], .obj [], .obj [], .obj [], .obj [], .obj []]))
       ∧ (flight_results (parse_flight_query flightParams) envOffers.affiliate
            [.obj [], .obj [], .obj [], .obj [], .obj [], .obj [], .obj []]).length ≤ 5
       ∧ (mk_search_params (parse_flight_query flightParams)).max = 5) :=
  ⟨by decide,
   C10_flights_list_capped_at_five envOffers flightParams
     [.obj [], .obj [], .obj [], .obj [], .obj [], .obj [], .obj []]
     rfl rfl (by decide) (by decide) (by decide) (by exact List.cons_ne_nil _ _)⟩

end VoiceBot
